import Mathlib

/-!
Verification of the WhatThePooh-Server real-time state-diff and notification
fan-out pipeline, as a shallow embedding of the Go source into Lean 4.

Conventions of the embedding:
* `time.Time` is modelled as `Nat` (an abstract instant); every call that reads
  the wall clock receives the current instant as an explicit `now` parameter.
* Go `int` is modelled as `Int`; Go `string` as `String`.
* `sync.Map` keyed state is modelled as a function `String → Option _` or as a
  duplicate-free association list, and channel buffers as `List _` with the
  capacity of the corresponding `make(chan _, n)`.
* Fallible external effects (the APNS push response) are passed in as explicit
  result values, so a worker body becomes a pure state transformer.
-/

namespace WTP

/-- Embeds `type EntityStatus string` (entity_manager.go).  The Go type is a
string type (any string can be cast into it), so the embedding is `String`;
the four named constants below are the declared values. -/
abbrev EntityStatus := String

/-- The declared constant `StatusClosed` (entity_manager.go). -/
def StatusClosed : EntityStatus := "CLOSED"

/-- The declared constant `StatusOperating` (entity_manager.go). -/
def StatusOperating : EntityStatus := "OPERATING"

/-- The declared constant `StatusDown` (entity_manager.go). -/
def StatusDown : EntityStatus := "DOWN"

/-- The declared constant `StatusRefurbishment` (entity_manager.go). -/
def StatusRefurbishment : EntityStatus := "REFURBISHMENT"

/-- Embeds `type Entity struct` (entity_manager.go): one monitored attraction. -/
structure Entity where
  entityID : String
  name : String
  entityType : String
  parkID : String
  waitTime : Int
  status : EntityStatus
  lastStatusChange : Nat
  lastWaitTimeChange : Nat
deriving DecidableEq, Repr

/-- The `EntityManager.entities` sync.Map: entity id to current entity. -/
def Store := String → Option Entity

/-- Embeds `type StatusChangeMessage struct` (rest_client.go): the event
published on the status-transition topic. -/
structure StatusChangeMessage where
  entityID : String
  parkID : String
  oldStatus : EntityStatus
  newStatus : EntityStatus
  oldWaitTime : Int
  newWaitTime : Int
  timestamp : Nat
deriving DecidableEq, Repr

/-- Embeds `type WaitTimeMessage struct` (rest_client.go): the event published
on the wait-time-transition topic.  Note the Go struct has no park-id field. -/
structure WaitTimeMessage where
  entityID : String
  oldWaitTime : Int
  newWaitTime : Int
  timestamp : Nat
deriving DecidableEq, Repr

/-- Result of one `ProcessEntity` call: the updated store and the event (if
any) published on each of the two topics during the call. -/
structure ProcessResult where
  store : Store
  statusEvent : Option StatusChangeMessage
  waitTimeEvent : Option WaitTimeMessage

/-- Embeds `func (em *EntityManager) ProcessEntity(entity Entity)`
(entity_manager.go lines 64-109).  The body runs under `em.mu`, so it is a
sequential state transformer; `now` stands for the value of the `time.Now()`
calls made during it.  An unknown id is inserted with both change timestamps
set to `now` and nothing published; a known id is diffed field by field
against the stored entity, publishing one event per changed field and
re-storing the updated copy of the stored entity. -/
def processEntity (s : Store) (entity : Entity) (now : Nat) : ProcessResult :=
  match s entity.entityID with
  | none =>
      let e := { entity with lastStatusChange := now, lastWaitTimeChange := now }
      { store := fun id => if id = entity.entityID then some e else s id
        statusEvent := none
        waitTimeEvent := none }
  | some existingEntity =>
      let statusEvent : Option StatusChangeMessage :=
        if entity.status ≠ existingEntity.status then
          some { entityID := entity.entityID
                 parkID := entity.parkID
                 oldStatus := existingEntity.status
                 newStatus := entity.status
                 oldWaitTime := existingEntity.waitTime
                 newWaitTime := entity.waitTime
                 timestamp := now }
        else none
      let e1 :=
        if entity.status ≠ existingEntity.status then
          { existingEntity with status := entity.status, lastStatusChange := now }
        else existingEntity
      let waitTimeEvent : Option WaitTimeMessage :=
        if entity.waitTime ≠ e1.waitTime then
          some { entityID := entity.entityID
                 oldWaitTime := e1.waitTime
                 newWaitTime := entity.waitTime
                 timestamp := now }
        else none
      let e2 :=
        if entity.waitTime ≠ e1.waitTime then
          { e1 with waitTime := entity.waitTime, lastWaitTimeChange := now }
        else e1
      { store := fun id => if id = entity.entityID then some e2 else s id
        statusEvent := statusEvent
        waitTimeEvent := waitTimeEvent }

/-- Capacity of each status-subscriber channel:
`make(chan StatusChangeMessage, 100)` in `SubscribeStatus` (rest_client.go). -/
def statusBufferCapacity : Nat := 100

/-- Embeds one iteration of the publish loop: the non-blocking
`select { case ch <- msg: default: log(drop) }` send of `PublishStatus`.  A
channel buffer with free space receives the message; a full buffer leaves the
message dropped for that subscriber (the drop is logged, no error value
exists to return). -/
def sendNonBlocking (ch : List StatusChangeMessage) (msg : StatusChangeMessage) :
    List StatusChangeMessage :=
  if ch.length < statusBufferCapacity then ch ++ [msg] else ch

/-- Embeds `func (mb *MessageBus) PublishStatus(msg StatusChangeMessage)`
(rest_client.go lines 275-288): iterate over all current subscribers,
performing the non-blocking send on each buffer independently. -/
def PublishStatus : List (List StatusChangeMessage) → StatusChangeMessage →
    List (List StatusChangeMessage)
  | [], _ => []
  | ch :: rest, msg => sendNonBlocking ch msg :: PublishStatus rest msg

/-- Embeds `type DeviceRegistration struct` (the registry row: sqlite.go). -/
structure DeviceRegistration where
  deviceToken : String
  appVersion : String
  deviceType : String
  environment : String
  lastUpdated : Nat
deriving DecidableEq, Repr

/-- Embeds `type PushRequest struct` (queue.go): one delivery job. -/
structure PushRequest where
  deviceToken : String
  message : String
  entityID : String
  parkID : String
  oldStatus : String
  newStatus : String
  oldWaitTime : Int
  newWaitTime : Int
  environment : String
deriving DecidableEq, Repr

/-- Embeds the status-transition branch of `StartMessageProcessors`
(message_processor.go lines 13-50) for one received message: the registry read
result is passed in explicitly (`Except.error` for a failed `GetAllDevices`).
On error or on an empty device set the loop continues with no job; otherwise
one `PushRequest` is built per device.  The Go composite literal sets
`Environment` on none of the jobs, so that field keeps its zero value `""`. -/
def fanOutStatus (devicesResult : Except String (List DeviceRegistration))
    (msg : StatusChangeMessage) : List PushRequest :=
  match devicesResult with
  | .error _ => []
  | .ok devices =>
    if devices.length = 0 then []
    else
      devices.map (fun device =>
        { deviceToken := device.deviceToken
          message := msg.entityID ++ ": " ++ msg.oldStatus ++ " -> " ++ msg.newStatus
          entityID := msg.entityID
          parkID := msg.parkID
          oldStatus := msg.oldStatus
          newStatus := msg.newStatus
          oldWaitTime := msg.oldWaitTime
          newWaitTime := msg.newWaitTime
          environment := "" })

/-- Capacity of `EntityQueue = make(chan Entity, 1000)` (queue.go). -/
def entityQueueCapacity : Nat := 1000

/-- Capacity of `PushQueue = make(chan PushRequest, 100)` (queue.go). -/
def pushQueueCapacity : Nat := 100

/-- Embeds `func QueueEntity(entity Entity)` (queue.go lines 30-38): a
non-blocking select send into the entity update queue; when the buffer is full
the default branch logs and drops the update, and the caller returns at once. -/
def QueueEntity (queue : List Entity) (entity : Entity) : List Entity :=
  if queue.length < entityQueueCapacity then queue ++ [entity] else queue

/-- Embeds `func Push(req PushRequest)` (queue.go lines 25-27): an
unconditional send `PushQueue <- req` on a buffered channel.  A send on a full
buffered channel suspends the caller until space frees up, so the embedding
returns `none` for a full queue — the caller is blocked and the job is
retained, never dropped. -/
def Push (queue : List PushRequest) (req : PushRequest) : Option (List PushRequest) :=
  if queue.length < pushQueueCapacity then some (queue ++ [req]) else none

/-- Embeds the SQLite-backed persistent store: the rows of the `devices`
table, whose `device_token` column is the PRIMARY KEY. -/
structure SQLiteDB where
  rows : List DeviceRegistration
deriving DecidableEq, Repr

/-- Embeds `func (s *SQLiteDB) StoreDeviceToken` (sqlite.go): the upsert
`INSERT ... ON CONFLICT(device_token) DO UPDATE`, which always writes the
server time `now` into `last_updated` — an existing row with the same token is
overwritten field by field from the registration, a missing token is inserted;
either way the row holds the server-assigned timestamp, never the caller's. -/
def SQLiteDB.StoreDeviceToken (s : SQLiteDB) (reg : DeviceRegistration) (now : Nat) : SQLiteDB :=
  if s.rows.any (fun d => d.deviceToken == reg.deviceToken) then
    ⟨s.rows.map (fun d =>
      if d.deviceToken == reg.deviceToken then { reg with lastUpdated := now } else d)⟩
  else ⟨s.rows ++ [{ reg with lastUpdated := now }]⟩

/-- Embeds `func (s *SQLiteDB) GetDeviceToken` (sqlite.go): `SELECT ... WHERE
device_token = ?`, `nil` on no row. -/
def SQLiteDB.GetDeviceToken (s : SQLiteDB) (token : String) : Option DeviceRegistration :=
  s.rows.find? (fun d => d.deviceToken == token)

/-- Embeds `func (s *SQLiteDB) GetAllDevices` (sqlite.go): all rows. -/
def SQLiteDB.GetAllDevices (s : SQLiteDB) : List DeviceRegistration :=
  s.rows

/-- Embeds `func (s *SQLiteDB) DeleteDeviceToken` (sqlite.go): `DELETE FROM
devices WHERE device_token = ?`. -/
def SQLiteDB.DeleteDeviceToken (s : SQLiteDB) (token : String) : SQLiteDB :=
  ⟨s.rows.filter (fun d => !(d.deviceToken == token))⟩

/-- The `sync.Map` store operation used for the registry cache: keyed upsert
(`c.cache.Store(token, value)` in cached_db.go). -/
def cacheStore (cache : List DeviceRegistration) (token : String)
    (value : DeviceRegistration) : List DeviceRegistration :=
  if cache.any (fun d => d.deviceToken == token) then
    cache.map (fun d => if d.deviceToken == token then value else d)
  else cache ++ [value]

/-- Embeds `type CachedDB struct` (cached_db.go): the in-memory cache plus the
backing SQLite store. -/
structure CachedDB where
  cache : List DeviceRegistration
  db : SQLiteDB
deriving DecidableEq, Repr

/-- Embeds `func (c *CachedDB) StoreDeviceToken` (cached_db.go lines 49-69):
write the persistent store first (which assigns the server timestamp), then
read the updated registration back from the store, and only then replace the
cached entry with the value just confirmed by the store — never with the
caller-supplied value. -/
def CachedDB.StoreDeviceToken (c : CachedDB) (reg : DeviceRegistration) (now : Nat) : CachedDB :=
  let db' := c.db.StoreDeviceToken reg now
  match db'.GetDeviceToken reg.deviceToken with
  | some updatedDevice => { cache := cacheStore c.cache reg.deviceToken updatedDevice, db := db' }
  | none => { cache := c.cache, db := db' }

/-- Embeds `func (c *CachedDB) GetDeviceToken` (cached_db.go): read the cache
first; on a miss read through to the persistent store and populate the cache;
`none` if absent in both.  Returns the result together with the (possibly
repopulated) registry state. -/
def CachedDB.GetDeviceToken (c : CachedDB) (token : String) :
    Option DeviceRegistration × CachedDB :=
  match c.cache.find? (fun d => d.deviceToken == token) with
  | some device => (some device, c)
  | none =>
    match c.db.GetDeviceToken token with
    | some device => (some device, { c with cache := cacheStore c.cache token device })
    | none => (none, c)

/-- Embeds `func (c *CachedDB) GetAllDevices` (cached_db.go lines 99-126):
return the cached snapshot; if the cache is empty, load the full persistent
set into the cache first (the table's PRIMARY KEY makes its rows unique per
token, so storing them one by one into the empty cache yields the row list). -/
def CachedDB.GetAllDevices (c : CachedDB) : List DeviceRegistration × CachedDB :=
  if c.cache.isEmpty then (c.db.GetAllDevices, { c with cache := c.db.GetAllDevices })
  else (c.cache, c)

/-- Embeds `func (c *CachedDB) DeleteDeviceToken` (cached_db.go lines 129-137):
remove from the cache first, then from the persistent store. -/
def CachedDB.DeleteDeviceToken (c : CachedDB) (token : String) : CachedDB :=
  { cache := c.cache.filter (fun d => !(d.deviceToken == token))
    db := c.db.DeleteDeviceToken token }

/-- The apns2 response reason constant `ReasonBadDeviceToken`. -/
def ReasonBadDeviceToken : String := "BadDeviceToken"

/-- The apns2 response reason constant `ReasonUnregistered`. -/
def ReasonUnregistered : String := "Unregistered"

/-- Outcome classes of one delivery attempt, as the spec names them. -/
inductive PushOutcome where
  | delivered
  | transientFailure
  | permanentInvalid
deriving DecidableEq, Repr

/-- The external sender's answer for one push: either a transport error from
`client.Push` (Go `err != nil`) or an APNS response with its `Sent()` flag and
`Reason` string. -/
inductive APNSResult where
  | pushError (message : String)
  | response (sent : Bool) (reason : String)
deriving DecidableEq, Repr

/-- Embeds the per-job body of `func apnsSender(id int)` (apns_worker.go lines
356-483) with the external sender's answer passed in: a transport error is
logged and the loop continues (no registry change, no retry); a sent response
is a success; a non-sent response whose reason is `BadDeviceToken` or
`Unregistered` triggers `db.DeleteDeviceToken` on the job's token; any other
non-sent reason is only logged.  The returned list is the set of jobs the
worker re-enqueues — always empty, as the loop never retries.  Audit records
(`StoreAPNSMessage`) go to a separate table and do not affect the registry. -/
def apnsHandleJob (c : CachedDB) (req : PushRequest) (res : APNSResult) :
    CachedDB × PushOutcome × List PushRequest :=
  match res with
  | .pushError _ => (c, .transientFailure, [])
  | .response sent reason =>
    if sent then (c, .delivered, [])
    else if reason == ReasonBadDeviceToken || reason == ReasonUnregistered then
      (c.DeleteDeviceToken req.deviceToken, .permanentInvalid, [])
    else (c, .transientFailure, [])

/-- Embeds `func ValidateDeviceToken(token string) bool` (apns_worker.go lines
95-103): the regex match against `[0-9a-fA-F]` repeated exactly 64 times,
anchored at both ends — a 64-character hexadecimal string. -/
def ValidateDeviceToken (token : String) : Bool :=
  token.length == 64 && token.toList.all (fun ch => "0123456789abcdefABCDEF".contains ch)

/-- Result of the registration endpoint, reduced to the handler's two
behaviours on a parsed body: HTTP 400 with an error text, or success. -/
inductive RegisterResult where
  | badRequest (message : String)
  | registered
deriving DecidableEq, Repr

/-- Embeds `func registerDeviceHandler(c *fiber.Ctx) error` (handlers.go lines
63-90) after body parsing: the handler rejects only an empty `DeviceToken` and
otherwise calls `db.StoreDeviceToken` directly — it invokes neither
`ValidateDeviceToken` nor `RegisterDevice` (which nothing calls), so no token
format check happens on this path. -/
def registerDeviceHandler (c : CachedDB) (registration : DeviceRegistration) (now : Nat) :
    RegisterResult × CachedDB :=
  if registration.deviceToken = "" then (.badRequest "Device token is required", c)
  else (.registered, c.StoreDeviceToken registration now)

/-! ## Sample inputs used by witnesses and counterexamples -/

/-- A store sample: one known entity under id `E1`. -/
def sampleEntity : Entity :=
  { entityID := "E1", name := "Ride", entityType := "ATTRACTION", parkID := "P1"
    waitTime := 10, status := StatusDown, lastStatusChange := 1, lastWaitTimeChange := 2 }

/-- An incoming update for `E1` changing status, wait time and the descriptive
fields. -/
def sampleUpdate : Entity :=
  { entityID := "E1", name := "RideRenamed", entityType := "SHOW", parkID := "P2"
    waitTime := 45, status := StatusOperating, lastStatusChange := 0, lastWaitTimeChange := 0 }

/-- A store that knows exactly the entity id `E1`. -/
def sampleStore : Store := fun id => if id = "E1" then some sampleEntity else none

/-- The empty store (no entity known). -/
def emptyStore : Store := fun _ => none

/-- Same stored entity as `sampleEntity` but in park `Q1` instead of `P1`. -/
def sampleEntityQ : Entity := { sampleEntity with parkID := "Q1" }

/-- Same update as `sampleUpdate` but with park id `Q2` instead of `P2`. -/
def sampleUpdateQ : Entity := { sampleUpdate with parkID := "Q2" }

/-- A store that knows exactly the entity id `E1`, in park `Q1`. -/
def sampleStoreQ : Store := fun id => if id = "E1" then some sampleEntityQ else none

/-- A sample registered device whose environment is `production`. -/
def sampleDeviceProd : DeviceRegistration :=
  { deviceToken := "aabbccdd", appVersion := "1.0.0", deviceType := "iPhone"
    environment := "production", lastUpdated := 3 }

/-- A second sample registered device. -/
def sampleDeviceDev : DeviceRegistration :=
  { deviceToken := "eeff0011", appVersion := "1.0.0", deviceType := "iPad"
    environment := "development", lastUpdated := 4 }

/-- A sample status transition as published by the State Store. -/
def sampleStatusMsg : StatusChangeMessage :=
  { entityID := "E1", parkID := "P1", oldStatus := StatusDown, newStatus := StatusOperating
    oldWaitTime := 0, newWaitTime := 45, timestamp := 7 }

/-- A sample delivery job, as the fan-out would build it for `sampleDeviceProd`. -/
def sampleJob : PushRequest :=
  { deviceToken := "aabbccdd", message := "E1: DOWN -> OPERATING", entityID := "E1"
    parkID := "P1", oldStatus := StatusDown, newStatus := StatusOperating
    oldWaitTime := 0, newWaitTime := 45, environment := "" }

/-- A registry holding the two sample devices in cache and store. -/
def sampleRegistry : CachedDB :=
  { cache := [sampleDeviceProd, sampleDeviceDev]
    db := ⟨[sampleDeviceProd, sampleDeviceDev]⟩ }

/-- The empty registry (cold cache, empty table). -/
def emptyRegistry : CachedDB := { cache := [], db := ⟨[]⟩ }

/-- An incoming update for `E1` that changes only the status: its wait time
equals the stored one. -/
def sampleStatusOnly : Entity := { sampleUpdate with waitTime := sampleEntity.waitTime }

/-- A registration request whose token is not a 64-character hex string (it is
the literal the repository's own test script posts to the endpoint). -/
def badTokenReg : DeviceRegistration :=
  { deviceToken := "invalid_token_123", appVersion := "1.0.0", deviceType := "iPhone"
    environment := "invalid", lastUpdated := 0 }

/-! ## Theorems settling the claims -/

/-- C1: for any call of `ProcessEntity` on an id already known to the store
(hence for every call of any sequence of updates applied to a known id, since
the id stays known), a status transition event is emitted iff the update's
status differs from the stored status, a wait-time transition event is emitted
iff the update's wait time differs from the stored wait time, and the stored
`LastStatusChange` / `LastWaitTimeChange` are set to the call's current time
exactly when the respective field changed and are untouched otherwise. -/
theorem processEntity_known_transition_iff (s : Store) (e u : Entity) (now : Nat)
    (h : s u.entityID = some e) :
    ((processEntity s u now).statusEvent.isSome ↔ u.status ≠ e.status) ∧
    ((processEntity s u now).waitTimeEvent.isSome ↔ u.waitTime ≠ e.waitTime) ∧
    ∃ e', (processEntity s u now).store u.entityID = some e' ∧
      e'.lastStatusChange = (if u.status = e.status then e.lastStatusChange else now) ∧
      e'.lastWaitTimeChange = (if u.waitTime = e.waitTime then e.lastWaitTimeChange else now) := by
  unfold processEntity
  rw [h]
  by_cases hs : u.status = e.status <;> by_cases hw : u.waitTime = e.waitTime <;>
    simp [hs, hw]

/-- C1 witness: concrete instantiation at the sample store, where both fields
change, so both events fire and both timestamps move to the call time `7`. -/
theorem processEntity_known_transition_iff_witness :
    sampleStore sampleUpdate.entityID = some sampleEntity ∧
    (((processEntity sampleStore sampleUpdate 7).statusEvent.isSome ↔
        sampleUpdate.status ≠ sampleEntity.status) ∧
    ((processEntity sampleStore sampleUpdate 7).waitTimeEvent.isSome ↔
        sampleUpdate.waitTime ≠ sampleEntity.waitTime) ∧
    ∃ e', (processEntity sampleStore sampleUpdate 7).store sampleUpdate.entityID = some e' ∧
      e'.lastStatusChange =
        (if sampleUpdate.status = sampleEntity.status then sampleEntity.lastStatusChange else 7) ∧
      e'.lastWaitTimeChange =
        (if sampleUpdate.waitTime = sampleEntity.waitTime then sampleEntity.lastWaitTimeChange else 7)) :=
  ⟨by decide,
   processEntity_known_transition_iff sampleStore sampleEntity sampleUpdate 7 (by decide)⟩

/-- C2: the first `ProcessEntity` call for an id unknown to the store inserts
the entity with both change timestamps initialized to the current time and
publishes nothing on either topic (silent bootstrap). -/
theorem processEntity_unknown_bootstrap (s : Store) (u : Entity) (now : Nat)
    (h : s u.entityID = none) :
    (processEntity s u now).statusEvent = none ∧
    (processEntity s u now).waitTimeEvent = none ∧
    (processEntity s u now).store u.entityID =
      some { u with lastStatusChange := now, lastWaitTimeChange := now } := by
  unfold processEntity
  rw [h]
  simp

/-- C2 witness: concrete instantiation at the empty store. -/
theorem processEntity_unknown_bootstrap_witness :
    emptyStore sampleUpdate.entityID = none ∧
    ((processEntity emptyStore sampleUpdate 7).statusEvent = none ∧
    (processEntity emptyStore sampleUpdate 7).waitTimeEvent = none ∧
    (processEntity emptyStore sampleUpdate 7).store sampleUpdate.entityID =
      some { sampleUpdate with lastStatusChange := 7, lastWaitTimeChange := 7 }) :=
  ⟨rfl, processEntity_unknown_bootstrap emptyStore sampleUpdate 7 rfl⟩

/-- C9: an update applied to a known id leaves the stored descriptive fields
`Name`, `EntityType` and `ParkID` (and the stored id) unchanged even when the
incoming update carries different values; only `Status`, `WaitTime` and the two
change timestamps can be modified — indeed the re-stored entity's status and
wait time always equal the update's values. -/
theorem processEntity_descriptive_frame (s : Store) (e u : Entity) (now : Nat)
    (h : s u.entityID = some e) :
    ∃ e', (processEntity s u now).store u.entityID = some e' ∧
      e'.name = e.name ∧ e'.entityType = e.entityType ∧ e'.parkID = e.parkID ∧
      e'.entityID = e.entityID ∧
      e'.status = u.status ∧ e'.waitTime = u.waitTime := by
  unfold processEntity
  rw [h]
  by_cases hs : u.status = e.status <;> by_cases hw : u.waitTime = e.waitTime <;>
    simp [hs, hw]

/-- C9 witness: the sample update renames the entity, changes its type and
moves it to another park, yet the stored descriptive fields stay those of the
first observation. -/
theorem processEntity_descriptive_frame_witness :
    sampleStore sampleUpdate.entityID = some sampleEntity ∧
    (∃ e', (processEntity sampleStore sampleUpdate 7).store sampleUpdate.entityID = some e' ∧
      e'.name = sampleEntity.name ∧ e'.entityType = sampleEntity.entityType ∧
      e'.parkID = sampleEntity.parkID ∧ e'.entityID = sampleEntity.entityID ∧
      e'.status = sampleUpdate.status ∧ e'.waitTime = sampleUpdate.waitTime) :=
  ⟨by decide,
   processEntity_descriptive_frame sampleStore sampleEntity sampleUpdate 7 (by decide)⟩

/-- C4: publishing is a total function of the buffers that returns no error to
the publisher (its Go signature has no return value and the body has no
blocking operation — the per-subscriber send is the non-blocking
select/default).  Every subscriber whose buffer (capacity 100) has free space
receives the event appended to its buffer; a subscriber whose buffer is full
keeps its buffer unchanged (the event is dropped for that subscriber only),
and the subscriber list itself is untouched (same length, each position
updated independently of all others). -/
theorem publishStatus_per_subscriber (subs : List (List StatusChangeMessage))
    (msg : StatusChangeMessage) :
    (PublishStatus subs msg).length = subs.length ∧
    ∀ i : Nat, (PublishStatus subs msg)[i]? =
      (subs[i]?).map (fun ch =>
        if ch.length < statusBufferCapacity then ch ++ [msg] else ch) := by
  constructor
  · induction subs with
    | nil => rfl
    | cons ch rest ih => simpa [PublishStatus] using ih
  · intro i
    induction subs generalizing i with
    | nil => simp [PublishStatus]
    | cons ch rest ih =>
      cases i with
      | zero => simp [PublishStatus, sendNonBlocking]
      | succ n => simpa [PublishStatus] using ih n

/-- C3 counterexample: the claim says every enqueued delivery job carries the
registered device's environment, but the fan-out loop never sets the
`Environment` field of the job, which therefore keeps the Go zero value `""`:
for a device registered with environment `production`, the single job produced
carries environment `""`, not `"production"`. -/
theorem fanOutStatus_environment_cex :
    (fanOutStatus (Except.ok [sampleDeviceProd]) sampleStatusMsg).map
      (fun job => job.environment) = [""] ∧
    sampleDeviceProd.environment = "production" := by
  constructor
  · rfl
  · rfl

/-- C3 (amended): on a failed registry read no job is produced; otherwise
exactly one delivery job is produced per registered device (in particular none
for an empty device set), and the job at each position carries the transition's
entity id, park id, old/new status and old/new wait time, together with that
device's token and the notification text — but its environment field is the
zero value `""`, not the device's registered environment. -/
theorem fanOutStatus_jobs (msg : StatusChangeMessage) (err : String)
    (devices : List DeviceRegistration) :
    fanOutStatus (Except.error err) msg = [] ∧
    (fanOutStatus (Except.ok devices) msg).length = devices.length ∧
    ∀ i : Nat, (fanOutStatus (Except.ok devices) msg)[i]? =
      (devices[i]?).map (fun device =>
        { deviceToken := device.deviceToken
          message := msg.entityID ++ ": " ++ msg.oldStatus ++ " -> " ++ msg.newStatus
          entityID := msg.entityID
          parkID := msg.parkID
          oldStatus := msg.oldStatus
          newStatus := msg.newStatus
          oldWaitTime := msg.oldWaitTime
          newWaitTime := msg.newWaitTime
          environment := "" }) := by
  have hmap : fanOutStatus (Except.ok devices) msg = devices.map (fun device =>
      { deviceToken := device.deviceToken
        message := msg.entityID ++ ": " ++ msg.oldStatus ++ " -> " ++ msg.newStatus
        entityID := msg.entityID
        parkID := msg.parkID
        oldStatus := msg.oldStatus
        newStatus := msg.newStatus
        oldWaitTime := msg.oldWaitTime
        newWaitTime := msg.newWaitTime
        environment := "" }) := by
    cases devices <;> simp [fanOutStatus]
  refine ⟨rfl, ?_, ?_⟩
  · simp [hmap]
  · intro i
    simp [hmap, List.getElem?_map]

/-- C10: submitting an entity update never blocks — `QueueEntity` is a total
function that appends when the queue (capacity 1000) has space and returns the
queue unchanged when it is full, so a full queue silently loses the update
before it ever reaches the State Store.  By contrast `Push` into the delivery
job queue (capacity 100) succeeds exactly when there is space and otherwise
blocks the caller (result `none`, the job retained): whenever a `Push`
completes, the resulting queue is the old queue with the job appended, so no
queued job and no pushed job is ever dropped. -/
theorem queueEntity_drops_push_blocks (q : List Entity) (e : Entity)
    (pq : List PushRequest) (r : PushRequest) :
    (q.length < entityQueueCapacity → QueueEntity q e = q ++ [e]) ∧
    (entityQueueCapacity ≤ q.length → QueueEntity q e = q) ∧
    ((Push pq r).isSome ↔ pq.length < pushQueueCapacity) ∧
    (∀ pq', Push pq r = some pq' → pq' = pq ++ [r]) := by
  refine ⟨?_, ?_, ?_, ?_⟩
  · intro h; simp [QueueEntity, h]
  · intro h; simp [QueueEntity, Nat.not_lt.mpr h]
  · by_cases h : pq.length < pushQueueCapacity <;> simp [Push, h]
  · intro pq' h
    by_cases hlt : pq.length < pushQueueCapacity
    · simpa [Push, hlt] using h.symm
    · simp [Push, hlt] at h

/-- C10 witness: concrete instantiation on empty queues, where both the entity
queue and the push queue have space. -/
theorem queueEntity_drops_push_blocks_witness :
    (([] : List Entity).length < entityQueueCapacity → QueueEntity [] sampleUpdate = [] ++ [sampleUpdate]) ∧
    (entityQueueCapacity ≤ ([] : List Entity).length → QueueEntity [] sampleUpdate = []) ∧
    ((Push [] sampleJob).isSome ↔ ([] : List PushRequest).length < pushQueueCapacity) ∧
    (∀ pq', Push [] sampleJob = some pq' → pq' = [] ++ [sampleJob]) :=
  queueEntity_drops_push_blocks [] sampleUpdate [] sampleJob

/-- Helper: if some row matches `p` and every matching row is overwritten with
a value `v` that itself matches `p`, then lookup by `p` returns `v`. -/
theorem find?_map_overwrite {α : Type} (p : α → Bool) (v : α) (hv : p v = true) :
    ∀ rows : List α, rows.any p = true →
      (rows.map (fun d => if p d then v else d)).find? p = some v := by
  intro rows h
  induction rows with
  | nil => simp at h
  | cons d rest ih =>
    by_cases hd : p d = true
    · simp [hd, hv]
    · have hd' : p d = false := by simpa using hd
      have hrest : rest.any p = true := by simpa [hd'] using h
      simpa [hd'] using ih hrest

/-- Helper: appending a row `v` matching `p` behind rows none of which match
makes lookup by `p` return `v`. -/
theorem find?_append_new {α : Type} (p : α → Bool) (v : α) (hv : p v = true) :
    ∀ rows : List α, rows.any p = false → (rows ++ [v]).find? p = some v := by
  intro rows h
  induction rows with
  | nil => simp [hv]
  | cons d rest ih =>
    have hd : p d = false := by
      rcases List.any_eq_false.mp h d (by simp) with hd'
      simpa using hd'
    have hrest : rest.any p = false := by
      refine List.any_eq_false.mpr ?_
      intro x hx
      exact List.any_eq_false.mp h x (by simp [hx])
    simpa [hd] using ih hrest

/-- Helper: after a cache upsert of `v` under its own token, the cache lookup
for that token returns `v`. -/
theorem find?_cacheStore (cache : List DeviceRegistration) (token : String)
    (v : DeviceRegistration) (hv : (v.deviceToken == token) = true) :
    (cacheStore cache token v).find? (fun d => d.deviceToken == token) = some v := by
  unfold cacheStore
  by_cases h : cache.any (fun d => d.deviceToken == token) = true
  · simpa [h] using find?_map_overwrite _ v hv cache h
  · have h' : cache.any (fun d => d.deviceToken == token) = false := by simpa using h
    simpa [h'] using find?_append_new _ v hv cache h'

/-- Helper: the SQLite upsert followed by a point read of the same token
returns the row with the server timestamp. -/
theorem sqlite_get_after_store (s : SQLiteDB) (reg : DeviceRegistration) (now : Nat) :
    (s.StoreDeviceToken reg now).GetDeviceToken reg.deviceToken =
      some { reg with lastUpdated := now } := by
  unfold SQLiteDB.StoreDeviceToken SQLiteDB.GetDeviceToken
  by_cases h : s.rows.any (fun d => d.deviceToken == reg.deviceToken) = true
  · simpa [h] using find?_map_overwrite (fun d => d.deviceToken == reg.deviceToken)
      { reg with lastUpdated := now } (by simp) s.rows h
  · have h' : s.rows.any (fun d => d.deviceToken == reg.deviceToken) = false := by simpa using h
    simpa [h'] using find?_append_new (fun d => d.deviceToken == reg.deviceToken)
      { reg with lastUpdated := now } (by simp) s.rows h'

/-- Helper: the cache-aside upsert followed by a `Get` of the same token
returns the store-confirmed row carrying the server timestamp. -/
theorem cachedGet_after_store (c : CachedDB) (reg : DeviceRegistration) (now : Nat) :
    ((c.StoreDeviceToken reg now).GetDeviceToken reg.deviceToken).1 =
      some { reg with lastUpdated := now } := by
  have hdb := sqlite_get_after_store c.db reg now
  unfold CachedDB.StoreDeviceToken
  simp only [hdb]
  unfold CachedDB.GetDeviceToken
  rw [find?_cacheStore c.cache reg.deviceToken _ (by simp)]

/-- C6: `Upsert` of a registration followed immediately by `Get` of the same
token returns a registration whose `lastUpdated` is the timestamp the
persistent store assigned (`now`), regardless of the caller-supplied
`lastUpdated`; moreover the upsert wrote the persistent store exactly as the
store's own upsert would, and the cached entry for the token equals the value
just confirmed by (read back from) the persistent store. -/
theorem upsert_get_store_timestamp (c : CachedDB) (reg : DeviceRegistration) (now : Nat) :
    ((c.StoreDeviceToken reg now).GetDeviceToken reg.deviceToken).1 =
      some { reg with lastUpdated := now } ∧
    (c.StoreDeviceToken reg now).db = c.db.StoreDeviceToken reg now ∧
    (c.StoreDeviceToken reg now).cache.find? (fun d => d.deviceToken == reg.deviceToken) =
      (c.StoreDeviceToken reg now).db.GetDeviceToken reg.deviceToken := by
  have hdb := sqlite_get_after_store c.db reg now
  refine ⟨cachedGet_after_store c reg now, ?_, ?_⟩
  · unfold CachedDB.StoreDeviceToken
    simp only [hdb]
  · unfold CachedDB.StoreDeviceToken
    simp only [hdb]
    rw [find?_cacheStore c.cache reg.deviceToken _ (by simp)]

/-- Helper: after deleting a token from the registry, the next `GetAllDevices`
(whether it answers from the cache or reloads from the store) contains no
registration with that token. -/
theorem getAll_after_delete_absent (c : CachedDB) (token : String) :
    ∀ d ∈ ((c.DeleteDeviceToken token).GetAllDevices).1, d.deviceToken ≠ token := by
  intro d hd
  unfold CachedDB.DeleteDeviceToken CachedDB.GetAllDevices at hd
  by_cases h : (c.cache.filter (fun d => !(d.deviceToken == token))).isEmpty
  · simp only [h, if_true] at hd
    unfold SQLiteDB.DeleteDeviceToken SQLiteDB.GetAllDevices at hd
    simp at hd
    exact hd.2
  · simp only [h, Bool.false_eq_true, if_false] at hd
    simp at hd
    exact hd.2

/-- C5: a worker's handling of one delivery job classifies the sender's answer
into exactly one of delivered, transient failure or permanent invalidity: the
outcome is permanent invalidity exactly for a non-sent response whose reason is
`BadDeviceToken` or `Unregistered`, and delivered exactly for a sent response.
A permanent-invalidity outcome deletes that device's registration, so the
token is absent from the registry's next `GetAllDevices`; any other outcome
leaves the registry untouched.  In every case the worker re-enqueues nothing
(the returned retry list is empty — no retry of the job). -/
theorem apnsWorker_outcomes (c : CachedDB) (req : PushRequest) (res : APNSResult) :
    (apnsHandleJob c req res).2.2 = [] ∧
    ((apnsHandleJob c req res).2.1 = PushOutcome.permanentInvalid ↔
      ∃ reason, res = APNSResult.response false reason ∧
        (reason = ReasonBadDeviceToken ∨ reason = ReasonUnregistered)) ∧
    ((apnsHandleJob c req res).2.1 = PushOutcome.delivered ↔
      ∃ reason, res = APNSResult.response true reason) ∧
    ((apnsHandleJob c req res).2.1 = PushOutcome.permanentInvalid →
      ∀ d ∈ ((apnsHandleJob c req res).1.GetAllDevices).1, d.deviceToken ≠ req.deviceToken) ∧
    ((apnsHandleJob c req res).2.1 ≠ PushOutcome.permanentInvalid →
      (apnsHandleJob c req res).1 = c) := by
  cases res with
  | pushError m => simp [apnsHandleJob]
  | response sent reason =>
    cases sent with
    | true => simp [apnsHandleJob]
    | false =>
      by_cases hr : (reason == ReasonBadDeviceToken || reason == ReasonUnregistered) = true
      · have hr' : reason = ReasonBadDeviceToken ∨ reason = ReasonUnregistered := by
          simpa using hr
        refine ⟨by simp [apnsHandleJob, hr], by simp [apnsHandleJob, hr, hr'], ?_, ?_, ?_⟩
        · simp [apnsHandleJob, hr]
        · intro _ d hd
          have : (apnsHandleJob c req (APNSResult.response false reason)).1 =
              c.DeleteDeviceToken req.deviceToken := by simp [apnsHandleJob, hr]
          rw [this] at hd
          exact getAll_after_delete_absent c req.deviceToken d hd
        · intro hcon
          exact absurd (by simp [apnsHandleJob, hr]) hcon
      · have hr' : ¬(reason = ReasonBadDeviceToken ∨ reason = ReasonUnregistered) := by
          simpa using hr
        simp [apnsHandleJob, hr, hr']

/-- C5 witness: a non-sent response with reason `Unregistered` for the sample
job against the sample registry. -/
theorem apnsWorker_outcomes_witness :
    (apnsHandleJob sampleRegistry sampleJob (APNSResult.response false ReasonUnregistered)).2.2 = [] ∧
    ((apnsHandleJob sampleRegistry sampleJob (APNSResult.response false ReasonUnregistered)).2.1 =
        PushOutcome.permanentInvalid ↔
      ∃ reason, APNSResult.response false ReasonUnregistered = APNSResult.response false reason ∧
        (reason = ReasonBadDeviceToken ∨ reason = ReasonUnregistered)) ∧
    ((apnsHandleJob sampleRegistry sampleJob (APNSResult.response false ReasonUnregistered)).2.1 =
        PushOutcome.delivered ↔
      ∃ reason, APNSResult.response false ReasonUnregistered = APNSResult.response true reason) ∧
    ((apnsHandleJob sampleRegistry sampleJob (APNSResult.response false ReasonUnregistered)).2.1 =
        PushOutcome.permanentInvalid →
      ∀ d ∈ ((apnsHandleJob sampleRegistry sampleJob
          (APNSResult.response false ReasonUnregistered)).1.GetAllDevices).1,
        d.deviceToken ≠ sampleJob.deviceToken) ∧
    ((apnsHandleJob sampleRegistry sampleJob (APNSResult.response false ReasonUnregistered)).2.1 ≠
        PushOutcome.permanentInvalid →
      (apnsHandleJob sampleRegistry sampleJob (APNSResult.response false ReasonUnregistered)).1 =
        sampleRegistry) :=
  apnsWorker_outcomes sampleRegistry sampleJob (APNSResult.response false ReasonUnregistered)

/-- C8 counterexample: the claim says a token that is not a 64-character hex
string is rejected and never stored, but the registration handler performs no
format validation: the token `invalid_token_123` fails `ValidateDeviceToken`,
yet the handler accepts it and it is stored in (and readable from) the
registry. -/
theorem registerDevice_no_format_check_cex :
    ValidateDeviceToken "invalid_token_123" = false ∧
    (registerDeviceHandler emptyRegistry badTokenReg 5).1 = RegisterResult.registered ∧
    ((registerDeviceHandler emptyRegistry badTokenReg 5).2.GetDeviceToken "invalid_token_123").1 =
      some { badTokenReg with lastUpdated := 5 } := by
  refine ⟨by decide, rfl, by decide⟩

/-- C8 (amended): the registration entry point rejects exactly the empty
device token (leaving the registry untouched); any non-empty token — hex or
not — is accepted and stored with the server timestamp.  The 64-character-hex
check `ValidateDeviceToken` exists in the code base but is not invoked on this
path. -/
theorem registerDevice_rejects_only_empty (c : CachedDB) (reg : DeviceRegistration) (now : Nat) :
    (reg.deviceToken = "" →
      registerDeviceHandler c reg now = (RegisterResult.badRequest "Device token is required", c)) ∧
    (reg.deviceToken ≠ "" →
      (registerDeviceHandler c reg now).1 = RegisterResult.registered ∧
      ((registerDeviceHandler c reg now).2.GetDeviceToken reg.deviceToken).1 =
        some { reg with lastUpdated := now }) := by
  constructor
  · intro h
    simp [registerDeviceHandler, h]
  · intro h
    refine ⟨by simp [registerDeviceHandler, h], ?_⟩
    have : (registerDeviceHandler c reg now).2 = c.StoreDeviceToken reg now := by
      simp [registerDeviceHandler, h]
    rw [this]
    exact cachedGet_after_store c reg now

/-- C8 amended-claim witness: concrete instantiation at the empty registry and
the non-empty, non-hex token registration. -/
theorem registerDevice_rejects_only_empty_witness :
    (badTokenReg.deviceToken = "" →
      registerDeviceHandler emptyRegistry badTokenReg 5 =
        (RegisterResult.badRequest "Device token is required", emptyRegistry)) ∧
    (badTokenReg.deviceToken ≠ "" →
      (registerDeviceHandler emptyRegistry badTokenReg 5).1 = RegisterResult.registered ∧
      ((registerDeviceHandler emptyRegistry badTokenReg 5).2.GetDeviceToken
          badTokenReg.deviceToken).1 = some { badTokenReg with lastUpdated := 5 }) :=
  registerDevice_rejects_only_empty emptyRegistry badTokenReg 5

/-- C7 counterexample: the claim says wait-time transition events carry the
park id, but `WaitTimeMessage` has no park-id field: two runs identical except
for the park id (stored entity in park `P1` updated from park `P2`, versus
stored entity in park `Q1` updated from park `Q2`) produce the very same
wait-time event, which is therefore incapable of carrying the park id. -/
theorem waitTimeEvent_lacks_parkID_cex :
    sampleEntity.parkID ≠ sampleEntityQ.parkID ∧
    sampleUpdate.parkID ≠ sampleUpdateQ.parkID ∧
    (processEntity sampleStore sampleUpdate 7).waitTimeEvent.isSome = true ∧
    (processEntity sampleStore sampleUpdate 7).waitTimeEvent =
      (processEntity sampleStoreQ sampleUpdateQ 7).waitTimeEvent := by
  refine ⟨by decide, by decide, by decide, by decide⟩

/-- C7 (amended): for every call on a known id — whichever subset of the two
fields changes — the event published on each topic is fully determined: a
status-transition event is produced exactly when the status differs and then
carries the entity id, the park id (from the incoming update), the old and new
status, the old and new wait time and the detection timestamp; a
wait-time-transition event is produced exactly when the wait time differs and
then carries the entity id, the old and new wait time and the detection
timestamp — but, its type having no such field, not the park id. -/
theorem transitionEvent_fields (s : Store) (e u : Entity) (now : Nat)
    (h : s u.entityID = some e) :
    (processEntity s u now).statusEvent =
      (if u.status = e.status then none else some
        { entityID := u.entityID, parkID := u.parkID, oldStatus := e.status, newStatus := u.status
          oldWaitTime := e.waitTime, newWaitTime := u.waitTime, timestamp := now }) ∧
    (processEntity s u now).waitTimeEvent =
      (if u.waitTime = e.waitTime then none else some
        { entityID := u.entityID, oldWaitTime := e.waitTime, newWaitTime := u.waitTime
          timestamp := now }) := by
  unfold processEntity
  rw [h]
  by_cases hs : u.status = e.status <;> by_cases hw : u.waitTime = e.waitTime <;>
    simp [hs, hw]

/-- C7 amended-claim witness: concrete instantiation at a status-only
transition (the sample store with an update whose wait time equals the stored
one): the status event carries equal old and new wait times and no wait-time
event is produced. -/
theorem transitionEvent_fields_witness :
    sampleStore sampleStatusOnly.entityID = some sampleEntity ∧
    ((processEntity sampleStore sampleStatusOnly 7).statusEvent =
      (if sampleStatusOnly.status = sampleEntity.status then none else some
        { entityID := sampleStatusOnly.entityID, parkID := sampleStatusOnly.parkID
          oldStatus := sampleEntity.status, newStatus := sampleStatusOnly.status
          oldWaitTime := sampleEntity.waitTime, newWaitTime := sampleStatusOnly.waitTime
          timestamp := 7 }) ∧
    (processEntity sampleStore sampleStatusOnly 7).waitTimeEvent =
      (if sampleStatusOnly.waitTime = sampleEntity.waitTime then none else some
        { entityID := sampleStatusOnly.entityID, oldWaitTime := sampleEntity.waitTime
          newWaitTime := sampleStatusOnly.waitTime, timestamp := 7 })) :=
  ⟨by decide,
   transitionEvent_fields sampleStore sampleEntity sampleStatusOnly 7 (by decide)⟩

end WTP
